import Mathlib

/-!
Verification of the bioconda-utils bot event layer
(`bioconda_utils/bot/events.py`).

The Python module is shallowly embedded below.  Strings are Lean
`String`s (lists of characters); Python `dict` lookups through
`event.get(path)` become `Option`-valued fields of an `Event` record,
where `none` models a missing path (a lookup without a default raises
`KeyError`, modelled by the `Outcome.exn` result).  Every side effect a
handler performs against the platform API gateway, the lint scheduler or
the command router is recorded, in order, as a `Call`; a handler returns
the list of calls it issued together with an `Outcome` saying whether it
returned normally or raised.

Caveats of the embedding, none of which affect the claims below:
`Char.toLower` lower-cases ASCII letters only (Python `str.lower` is
Unicode-aware); `splitlines` splits on the newline character only
(Python also splits on carriage returns); Python `str.split()` also
treats form feed and vertical tab as whitespace.
-/

namespace BotEvents

/-! ## String helpers mirroring the Python primitives -/

/-- Python `str.lower()` (ASCII letters). -/
def lowerStr (s : String) : String := String.mk (s.data.map Char.toLower)

/-- Tokeniser behind Python `str.split()` with no separator argument:
split on runs of whitespace, discarding empty tokens.  The first
argument accumulates the current (reversed) token. -/
def tokensAux : List Char → List Char → List (List Char)
  | acc, [] => if acc.isEmpty then [] else [acc.reverse]
  | acc, c :: cs =>
      if c.isWhitespace then
        if acc.isEmpty then tokensAux [] cs
        else acc.reverse :: tokensAux [] cs
      else tokensAux (c :: acc) cs

/-- Python `str.split()` with no arguments. -/
def pySplit (s : String) : List String := (tokensAux [] s.data).map String.mk

/-- Worker for `splitlines`; the first argument is the current
(reversed) line. -/
def splitlinesAux : List Char → List Char → List String
  | cur, [] => if cur.isEmpty then [] else [String.mk cur.reverse]
  | cur, c :: cs =>
      if c = '\n' then String.mk cur.reverse :: splitlinesAux [] cs
      else splitlinesAux (c :: cur) cs

/-- Python `str.splitlines()` (newline separators; no trailing empty
line). -/
def splitlines (s : String) : List String := splitlinesAux [] s.data

/-- Python `str.endswith(suffix)`. -/
def pyEndsWith (s suffix : String) : Bool := List.isSuffixOf suffix.data s.data

/-- Re-match of `BOT_ALIAS_RE = re.compile(r'@bioconda[- ]?bot', re.IGNORECASE)`
against the start of `line` (`re.match` anchors at position 0 and the
optional separator group gives exactly three literal alternatives). -/
def botAliasMatch (line : String) : Bool :=
  let l := line.data.map Char.toLower
  List.isPrefixOf ("@bioconda-bot".data) l
    || List.isPrefixOf ("@bioconda bot".data) l
    || List.isPrefixOf ("@biocondabot".data) l

/-! ## Data model -/

/-- Check-run lifecycle status (`githubhandler.CheckRunStatus`). -/
inductive CheckRunStatus
  | queued
  | in_progress
  | completed
deriving DecidableEq

/-- Check-run conclusion (`githubhandler.CheckRunConclusion`). -/
inductive CheckRunConclusion
  | neutral
  | success
  | failure
  | cancelled
  | timed_out
  | action_required
deriving DecidableEq

/-- A keyword-argument value at a `modify_check_run` call site. -/
inductive KwVal
  | status (s : CheckRunStatus)
  | conclusion (c : CheckRunConclusion)
  | str (s : String)
deriving DecidableEq

/-- The value object handed to the lint scheduler (`tasks.PRInfo`;
field names follow the spec's boundary description). -/
structure PRInfo where
  installation_id : Nat
  owner_login : String
  repo_name : String
  ref : String
  recipe_paths : List String
  pr_number : Nat
deriving DecidableEq

/-- One element of a `pull_requests` array in a webhook payload. -/
structure PullRequestRef where
  number : Nat
deriving DecidableEq

/-- One entry of the PR modified-files listing. -/
structure FileItem where
  filename : String
deriving DecidableEq

/-- The head section of a pull request returned by `ghapi.get_prs`. -/
structure PR where
  head_user_login : String
  head_repo_name : String
  head_ref : String
deriving DecidableEq

/-- A recorded side effect of a handler: a command dispatch, a platform
API gateway request, or a scheduler call.  `modify_check_run` records
the keyword arguments exactly as written at the call site, so a
misspelled keyword is visible. -/
inductive Call
  | dispatch (cmd : String) (args : List String)
  | create_check_run (title : String) (head_sha : String)
  | modify_check_run (run_id : Nat) (kwargs : List (String × KwVal))
  | schedule (pr_info : PRInfo) (head_sha : String) (check_run_id : Nat)
deriving DecidableEq

/-- Whether the handler returned normally or raised an exception. -/
inductive Outcome
  | ok
  | exn (msg : String)
deriving DecidableEq

/-- The event envelope: each `Option` field models one `event.get`
path used by `events.py`; `none` is a missing path. -/
structure Event where
  action : Option String
  comment_body : Option String
  check_suite_head_sha : Option String
  check_suite_pull_requests : Option (List PullRequestRef)
  check_run_id : Option Nat
  check_run_head_sha : Option String
  check_run_app_id : Option Nat
  installation_id : Option Nat
  check_run_check_suite_pull_requests : Option (List PullRequestRef)

/-- The platform API gateway operations the handlers read from
(responses are supplied by the environment). -/
structure Gateway where
  get_prs : Nat → Option PR
  get_pr_modified_files : Nat → List FileItem

/-! ## comment_created -/

/-- Contribution of one comment line to the `commands` list:
`line.lower().split()[1:]` when `BOT_ALIAS_RE.match(line)` succeeds. -/
def parseLine (line : String) : Option (List String) :=
  if botAliasMatch line then some ((pySplit (lowerStr line)).drop 1) else none

/-- The list comprehension in `comment_created`. -/
def extractCommands (body : String) : List (List String) :=
  (splitlines body).filterMap parseLine

/-- The loop `for cmd, *args in commands: await command_routes.dispatch(...)`.
Unpacking an empty entry raises `ValueError` before that entry is
dispatched; entries before it have already been dispatched. -/
def dispatchCommands : List (List String) → List Call × Outcome
  | [] => ([], Outcome.ok)
  | [] :: _ => ([], Outcome.exn "ValueError: not enough values to unpack")
  | (cmd :: args) :: rest =>
      let r := dispatchCommands rest
      (Call.dispatch cmd args :: r.1, r.2)

/-- Handler for `issue_comment.created`. -/
def comment_created (event : Event) (_ghapi : Gateway) : List Call × Outcome :=
  match event.comment_body with
  | none => ([], Outcome.exn "KeyError at comment/body")
  | some body => dispatchCommands (extractCommands body)

/-! ## Check-run orchestration -/

/-- Keyword arguments of the `modify_check_run` call in the
no-associated-PRs branch.  The summary keyword is misspelled
`outout_summary` in the source. -/
def noPRsKwargs : List (String × KwVal) :=
  [("status", KwVal.status CheckRunStatus.completed),
   ("conclusion", KwVal.conclusion CheckRunConclusion.neutral),
   ("output_title", KwVal.str "No PRs associated"),
   ("outout_summary", KwVal.str "Merges commits are not linted")]

/-- Keyword arguments of the `modify_check_run` call in the
PR-lookup-failed branch (summary keyword likewise misspelled). -/
def prNotFoundKwargs (issue_number : Nat) : List (String × KwVal) :=
  [("status", KwVal.status CheckRunStatus.completed),
   ("conclusion", KwVal.conclusion CheckRunConclusion.neutral),
   ("output_title", KwVal.str "PR not found"),
   ("outout_summary", KwVal.str ("PR " ++ toString issue_number ++ " not found?"))]

/-- Keyword arguments of the `modify_check_run` call in the
no-recipes-modified branch (spelled correctly here). -/
def noRecipesKwargs : List (String × KwVal) :=
  [("status", KwVal.status CheckRunStatus.completed),
   ("conclusion", KwVal.conclusion CheckRunConclusion.success),
   ("output_title", KwVal.str "No recipes modified by PR"),
   ("output_summary", KwVal.str "No need to check anything.")]

/-- The list comprehension filtering modified files to recipe
manifests: keep `item['filename']` when it ends with `'/meta.yaml'`. -/
def recipeFilter (files : List FileItem) : List String :=
  (files.filter (fun item => pyEndsWith item.filename "/meta.yaml")).map
    FileItem.filename

/-- The `create_check_run` helper: read the head SHA from
`check_suite/head_sha`, falling back to `check_run/head_sha` on
`KeyError`, then request creation of a check run titled
"Linting Recipe(s)". -/
def create_check_run (event : Event) (_ghapi : Gateway) : List Call × Outcome :=
  match event.check_suite_head_sha with
  | some head_sha => ([Call.create_check_run "Linting Recipe(s)" head_sha], Outcome.ok)
  | none =>
      match event.check_run_head_sha with
      | some head_sha => ([Call.create_check_run "Linting Recipe(s)" head_sha], Outcome.ok)
      | none => ([], Outcome.exn "KeyError at check_run/head_sha")

/-- The initiation protocol run on `check_run.created`. -/
def initiate_check_run (event : Event) (ghapi : Gateway) : List Call × Outcome :=
  match event.check_run_id with
  | none => ([], Outcome.exn "KeyError at check_run/id")
  | some check_run_number =>
  match event.check_run_head_sha with
  | none => ([], Outcome.exn "KeyError at check_run/head_sha")
  | some head_sha =>
  match event.check_run_check_suite_pull_requests with
  | none => ([], Outcome.exn "KeyError at check_run/check_suite/pull_requests")
  | some prs =>
  match prs with
  | [] => ([Call.modify_check_run check_run_number noPRsKwargs], Outcome.ok)
  | pr0 :: _ =>
      match ghapi.get_prs pr0.number with
      | none =>
          ([Call.modify_check_run check_run_number (prNotFoundKwargs pr0.number)],
           Outcome.exn "TypeError: subscript of falsy PR lookup result")
      | some pr =>
          if (recipeFilter (ghapi.get_pr_modified_files pr0.number)).isEmpty then
            ([Call.modify_check_run check_run_number noRecipesKwargs], Outcome.ok)
          else
            match event.installation_id with
            | none => ([], Outcome.exn "KeyError at installation/id")
            | some inst =>
                ([Call.schedule
                    (PRInfo.mk inst pr.head_user_login pr.head_repo_name pr.head_ref
                      (recipeFilter (ghapi.get_pr_modified_files pr0.number)) pr0.number)
                    head_sha check_run_number], Outcome.ok)

/-- Handler for `check_suite` events. -/
def handle_check_suite (event : Event) (ghapi : Gateway) : List Call × Outcome :=
  match event.action with
  | none => ([], Outcome.exn "KeyError at action")
  | some action =>
      if action ≠ "requested" ∧ action ≠ "rerequested" then ([], Outcome.ok)
      else
        if (event.check_suite_pull_requests.getD []).isEmpty then ([], Outcome.ok)
        else create_check_run event ghapi

/-- Handler for `check_run` events, guarded by the configured
application id. -/
def handle_check_run (app_id : Nat) (event : Event) (ghapi : Gateway) :
    List Call × Outcome :=
  match event.check_run_app_id with
  | none => ([], Outcome.exn "KeyError at check_run/app/id")
  | some run_app_id =>
      if run_app_id ≠ app_id then ([], Outcome.ok)
      else
        match event.action with
        | none => ([], Outcome.exn "KeyError at action")
        | some action =>
          if action = "rerequested" then create_check_run event ghapi
          else if action = "created" then initiate_check_run event ghapi
          else ([], Outcome.ok)

/-! ## Auxiliary predicates and concrete fixtures -/

/-- A line with no leading whitespace, so that its first token starts at
the first character. -/
def noLeadingWs (s : String) : Bool :=
  match s.data with
  | [] => true
  | c :: _ => !c.isWhitespace

/-- Recognises a create-check-run gateway request. -/
def isCreateCall : Call → Bool
  | Call.create_check_run _ _ => true
  | _ => false

/-- Recognises a modify-check-run gateway request. -/
def isModifyCall : Call → Bool
  | Call.modify_check_run _ _ => true
  | _ => false

/-- Recognises a lint-scheduler call. -/
def isScheduleCall : Call → Bool
  | Call.schedule _ _ _ => true
  | _ => false

/-- A gateway whose PR lookup finds nothing and whose file listing is
empty. -/
def gw0 : Gateway := Gateway.mk (fun _ => none) (fun _ => [])

/-- A gateway for the spec's concrete scenario: the PR exists and its
diff touches `recipes/foo/meta.yaml` and `recipes/foo/build.sh`. -/
def gwScenario : Gateway :=
  Gateway.mk (fun _ => some (PR.mk "alice" "bioconda-recipes" "patch-1"))
    (fun _ => [FileItem.mk "recipes/foo/meta.yaml", FileItem.mk "recipes/foo/build.sh"])

/-- A gateway whose PR exists but whose diff has no recipe manifest. -/
def gwNoRecipes : Gateway :=
  Gateway.mk (fun _ => some (PR.mk "alice" "bioconda-recipes" "patch-1"))
    (fun _ => [FileItem.mk "recipes/foo/build.sh"])

/-- Event fields in constructor order: action, comment_body,
check_suite_head_sha, check_suite_pull_requests, check_run_id,
check_run_head_sha, check_run_app_id, installation_id,
check_run_check_suite_pull_requests.  This one is a `check_run`
rerequest by app 7. -/
def evRerun : Event :=
  Event.mk (some "rerequested") none none none (some 5) (some "abc123") (some 7)
    (some 11) (some [])

/-- A `check_run.created` event (app 7) with no associated PRs. -/
def evNoPRs : Event :=
  Event.mk (some "created") none none none (some 5) (some "abc123") (some 7)
    (some 11) (some [])

/-- A `check_run.created` event (app 7) whose suite lists PR 42. -/
def evOnePR : Event :=
  Event.mk (some "created") none none none (some 5) (some "abc123") (some 7)
    (some 11) (some [PullRequestRef.mk 42])

/-- A `check_run.created` event carrying app id 9 instead of 7. -/
def evOtherApp : Event :=
  Event.mk (some "created") none none none (some 5) (some "abc123") (some 9)
    (some 11) (some [PullRequestRef.mk 42])

/-- A `check_suite` event with action `completed`. -/
def evSuiteCompleted : Event :=
  Event.mk (some "completed") none (some "abc123") (some [PullRequestRef.mk 42])
    none none none (some 11) none

/-- A `check_suite.requested` event with an empty `pull_requests` set. -/
def evSuiteEmpty : Event :=
  Event.mk (some "requested") none (some "abc123") (some []) none none none
    (some 11) none

/-- An `issue_comment.created` event with the spec's three-line body. -/
def evC7 : Event :=
  Event.mk (some "created")
    (some "@bioconda-bot please\n@bioconda-bot merge\nhello @bioconda-bot")
    none none none none none none none

/-- A comment whose second line is the bare bot alias. -/
def evC8 : Event :=
  Event.mk (some "created") (some "@bioconda-bot merge\n@bioconda-bot")
    none none none none none none none

/-! ## Character and tokeniser lemmas -/

lemma toNat_ofNat_lt (n : Nat) (h : n < 55296) : (Char.ofNat n).toNat = n := by
  unfold Char.ofNat
  rw [dif_pos (Or.inl h)]
  simp [Char.ofNatAux, Char.toNat, UInt32.toNat]

/-- Lower-casing a character does not change whether it is whitespace. -/
lemma isWhitespace_toLower (c : Char) :
    (Char.toLower c).isWhitespace = c.isWhitespace := by
  unfold Char.toLower
  show (if c.toNat ≥ 65 ∧ c.toNat ≤ 90 then Char.ofNat (c.toNat + 32) else c).isWhitespace
      = c.isWhitespace
  split
  · rename_i h
    obtain ⟨h1, h2⟩ := h
    have hres : (Char.ofNat (c.toNat + 32)).toNat = c.toNat + 32 :=
      toNat_ofNat_lt _ (by simp [Char.toNat] at h1 h2 ⊢; omega)
    have hws : c.isWhitespace = false := by
      simp only [Char.isWhitespace, Bool.or_eq_false_iff, decide_eq_false_iff_not]
      refine ⟨⟨⟨?_, ?_⟩, ?_⟩, ?_⟩ <;> rintro rfl <;>
        simp [Char.toNat, UInt32.size] at h1 h2
    rw [hws]
    simp only [Char.isWhitespace, Bool.or_eq_false_iff, decide_eq_false_iff_not]
    refine ⟨⟨⟨?_, ?_⟩, ?_⟩, ?_⟩ <;> intro he <;> rw [he] at hres <;>
      simp [Char.toNat, UInt32.size] at hres h1 h2 <;> omega
  · rfl

/-- Tokenising a lower-cased character list yields the lower-cased
tokens of the original list. -/
lemma tokensAux_lower (cs : List Char) : ∀ acc : List Char,
    tokensAux (acc.map Char.toLower) (cs.map Char.toLower)
      = (tokensAux acc cs).map (List.map Char.toLower) := by
  induction cs with
  | nil =>
      intro acc
      simp only [List.map_nil, tokensAux]
      by_cases ha : acc = []
      · subst ha; simp
      · simp [List.isEmpty_iff, ha]
  | cons c cs ih =>
      intro acc
      simp only [List.map_cons, tokensAux, isWhitespace_toLower]
      by_cases hw : c.isWhitespace
      · simp only [hw, if_true]
        by_cases ha : acc = []
        · subst ha
          simpa using ih []
        · simp only [List.isEmpty_iff, List.map_eq_nil_iff, ha, if_false]
          have h0 := ih []
          simp only [List.map_nil] at h0
          simp [h0, List.map_reverse]
      · simp only [hw, if_false]
        simpa using ih (c :: acc)

/-- Python-level counterpart: `line.lower().split()` is the lower-cased
`line.split()`. -/
lemma pySplit_lower (s : String) :
    pySplit (lowerStr s) = (pySplit s).map lowerStr := by
  show (tokensAux [] (s.data.map Char.toLower)).map String.mk
      = ((tokensAux [] s.data).map String.mk).map lowerStr
  have h := tokensAux_lower s.data []
  simp only [List.map_nil] at h
  rw [h, List.map_map, List.map_map]
  rfl

/-- The first token produced by the tokeniser is the leading
non-whitespace run (given that the input does not start with
whitespace, or that a token is already in progress). -/
lemma tokensAux_head (cs : List Char) : ∀ (acc t : List Char) (ts : List (List Char)),
    (acc = [] → ∀ c cs', cs = c :: cs' → c.isWhitespace = false) →
    tokensAux acc cs = t :: ts →
    t = acc.reverse ++ cs.takeWhile (fun c => !c.isWhitespace) := by
  induction cs with
  | nil =>
      intro acc t ts _ heq
      simp only [tokensAux] at heq
      by_cases ha : acc = []
      · simp [ha, List.isEmpty_iff] at heq
      · simp only [List.isEmpty_iff, ha, if_false] at heq
        injection heq with h1 h2
        simp [← h1]
  | cons c cs ih =>
      intro acc t ts hside heq
      simp only [tokensAux] at heq
      by_cases hw : c.isWhitespace
      · by_cases ha : acc = []
        · exact absurd hw (by simp [hside ha c cs rfl])
        · simp only [hw, if_true, List.isEmpty_iff, ha, if_false] at heq
          injection heq with h1 h2
          simp [← h1, List.takeWhile_cons, hw]
      · simp only [hw, if_false] at heq
        have := ih (c :: acc) t ts (by intro hc; exact absurd hc (by simp)) heq
        simp only [this, List.reverse_cons, List.takeWhile_cons, hw]
        simp

/-- The first token of a line without leading whitespace is a prefix of
the line. -/
lemma pySplit_head_of_line (line t0 : String) (ts : List String)
    (hsplit : pySplit line = t0 :: ts)
    (hstart : noLeadingWs line = true) :
    t0.data <+: line.data := by
  unfold pySplit at hsplit
  obtain ⟨l0, ls, htok, hmk, -⟩ := List.map_eq_cons_iff.mp hsplit
  have hhead := tokensAux_head line.data [] l0 ls ?_ htok
  · rw [← hmk]
    show l0 <+: line.data
    rw [hhead]
    simpa using List.takeWhile_prefix _
  · intro _ c cs' hcs
    unfold noLeadingWs at hstart
    rw [hcs] at hstart
    simpa using hstart

/-- The alias regex matches the whole line as soon as it matches a
prefix of the line. -/
lemma botAliasMatch_of_token (line t0 : String)
    (hpre : t0.data <+: line.data)
    (halias : botAliasMatch t0 = true) :
    botAliasMatch line = true := by
  unfold botAliasMatch at halias ⊢
  simp only [Bool.or_eq_true, List.isPrefixOf_iff_prefix] at halias ⊢
  have hmap : t0.data.map Char.toLower <+: line.data.map Char.toLower :=
    hpre.map Char.toLower
  rcases halias with (h | h) | h
  · exact Or.inl (Or.inl (h.trans hmap))
  · exact Or.inl (Or.inr (h.trans hmap))
  · exact Or.inr (h.trans hmap)

/-! ## Branch-shape lemmas for the orchestrator -/


lemma create_check_run_calls (ev : Event) (gw : Gateway) :
    (create_check_run ev gw).1 = [] ∨
    ∃ sha, (create_check_run ev gw).1 = [Call.create_check_run "Linting Recipe(s)" sha] := by
  cases h1 : ev.check_suite_head_sha with
  | some sha => exact Or.inr ⟨sha, by simp [create_check_run, h1]⟩
  | none =>
      cases h2 : ev.check_run_head_sha with
      | some sha => exact Or.inr ⟨sha, by simp [create_check_run, h1, h2]⟩
      | none => exact Or.inl (by simp [create_check_run, h1, h2])

lemma initiate_check_run_calls (ev : Event) (gw : Gateway) :
    (initiate_check_run ev gw).1 = [] ∨
    (∃ r k, (initiate_check_run ev gw).1 = [Call.modify_check_run r k]) ∨
    (∃ p s r, (initiate_check_run ev gw).1 = [Call.schedule p s r]) := by
  cases hid : ev.check_run_id with
  | none => exact Or.inl (by simp [initiate_check_run, hid])
  | some rid =>
  cases hsha : ev.check_run_head_sha with
  | none => exact Or.inl (by simp [initiate_check_run, hid, hsha])
  | some sha =>
  cases hprs : ev.check_run_check_suite_pull_requests with
  | none => exact Or.inl (by simp [initiate_check_run, hid, hsha, hprs])
  | some prs =>
  cases prs with
  | nil =>
      exact Or.inr (Or.inl ⟨rid, noPRsKwargs, by simp [initiate_check_run, hid, hsha, hprs]⟩)
  | cons p0 ps =>
  cases hpr : gw.get_prs p0.number with
  | none =>
      exact Or.inr (Or.inl ⟨rid, prNotFoundKwargs p0.number,
        by simp [initiate_check_run, hid, hsha, hprs, hpr]⟩)
  | some pr =>
  cases hrec : (recipeFilter (gw.get_pr_modified_files p0.number)).isEmpty with
  | true =>
      exact Or.inr (Or.inl ⟨rid, noRecipesKwargs,
        by simp [initiate_check_run, hid, hsha, hprs, hpr, hrec]⟩)
  | false =>
  cases hinst : ev.installation_id with
  | none => exact Or.inl (by simp [initiate_check_run, hid, hsha, hprs, hpr, hrec, hinst])
  | some inst =>
      exact Or.inr (Or.inr ⟨PRInfo.mk inst pr.head_user_login pr.head_repo_name pr.head_ref
          (recipeFilter (gw.get_pr_modified_files p0.number)) p0.number, sha, rid,
        by simp [initiate_check_run, hid, hsha, hprs, hpr, hrec, hinst]⟩)

lemma handle_check_suite_calls (ev : Event) (gw : Gateway) :
    (handle_check_suite ev gw).1 = [] ∨
    ∃ sha, (handle_check_suite ev gw).1 = [Call.create_check_run "Linting Recipe(s)" sha] := by
  cases ha : ev.action with
  | none => exact Or.inl (by simp [handle_check_suite, ha])
  | some a =>
      by_cases h1 : a ≠ "requested" ∧ a ≠ "rerequested"
      · exact Or.inl (by simp [handle_check_suite, ha, h1])
      · cases hprs : (ev.check_suite_pull_requests.getD []).isEmpty with
        | true => exact Or.inl (by simp [handle_check_suite, ha, h1, hprs])
        | false =>
            have heq : handle_check_suite ev gw = create_check_run ev gw := by
              simp [handle_check_suite, ha, h1, hprs]
            rw [heq]
            exact create_check_run_calls ev gw

lemma handle_check_run_calls (app_id : Nat) (ev : Event) (gw : Gateway) :
    (handle_check_run app_id ev gw).1 = [] ∨
    (ev.action = some "rerequested" ∧
      handle_check_run app_id ev gw = create_check_run ev gw) ∨
    (ev.action = some "created" ∧
      handle_check_run app_id ev gw = initiate_check_run ev gw) := by
  cases hrid : ev.check_run_app_id with
  | none => exact Or.inl (by simp [handle_check_run, hrid])
  | some rid =>
      by_cases hne : rid ≠ app_id
      · exact Or.inl (by simp [handle_check_run, hrid, hne])
      · cases ha : ev.action with
        | none => exact Or.inl (by simp [handle_check_run, hrid, hne, ha])
        | some a =>
            by_cases h1 : a = "rerequested"
            · subst h1
              exact Or.inr (Or.inl ⟨rfl, by simp [handle_check_run, hrid, hne, ha]⟩)
            · by_cases h2 : a = "created"
              · subst h2
                exact Or.inr (Or.inr ⟨rfl, by simp [handle_check_run, hrid, hne, ha, h1]⟩)
              · exact Or.inl (by simp [handle_check_run, hrid, hne, ha, h1, h2])

/-! ## Dispatch-loop and recipe-filter lemmas -/

lemma dispatchCommands_empty_entry (pre post : List (List String)) (hpre : [] ∉ pre) :
    dispatchCommands (pre ++ [] :: post)
      = (pre.map (fun c => Call.dispatch (c.headD "") (c.drop 1)),
         Outcome.exn "ValueError: not enough values to unpack") := by
  induction pre with
  | nil => simp [dispatchCommands]
  | cons c cs ih =>
      cases c with
      | nil => exact absurd (List.mem_cons_self _ _) hpre
      | cons x xs =>
          have h2 : [] ∉ cs := fun h => hpre (List.mem_cons_of_mem _ h)
          simp only [List.cons_append, dispatchCommands, List.append_eq, ih h2, List.map_cons,
            List.headD_cons, List.drop_succ_cons, List.drop_zero]

lemma recipeFilter_eq_filter_map (files : List FileItem) :
    recipeFilter files
      = (files.map FileItem.filename).filter (fun f => pyEndsWith f "/meta.yaml") := by
  induction files with
  | nil => rfl
  | cons it rest ih =>
      simp only [recipeFilter, List.filter_cons, List.map_cons] at ih ⊢
      cases h : pyEndsWith it.filename "/meta.yaml" <;> simp [h, ih]

lemma pyEndsWith_iff (s suffix : String) :
    pyEndsWith s suffix = true ↔ ∃ t : String, s = t ++ suffix := by
  unfold pyEndsWith
  rw [List.isSuffixOf_iff_suffix]
  constructor
  · rintro ⟨t, ht⟩
    refine ⟨String.mk t, String.ext ?_⟩
    simp [← ht]
  · rintro ⟨t, rfl⟩
    exact ⟨t.data, by simp⟩

lemma mem_recipeFilter_iff (files : List FileItem) (f : String) :
    f ∈ recipeFilter files
      ↔ (∃ it ∈ files, it.filename = f) ∧ pyEndsWith f "/meta.yaml" = true := by
  unfold recipeFilter
  simp only [List.mem_map, List.mem_filter]
  constructor
  · rintro ⟨it, ⟨hmem, hend⟩, rfl⟩
    exact ⟨⟨it, hmem, rfl⟩, hend⟩
  · rintro ⟨⟨it, hmem, rfl⟩, hend⟩
    exact ⟨it, ⟨hmem, hend⟩, rfl⟩


/-! ## Claim theorems -/

/-- C5: for every check_run event whose check_run.app.id differs from the
configured application id, the handler issues no gateway call and no
scheduler call and returns normally. -/
theorem c5_app_guard (app_id other : Nat) (ev : Event) (gw : Gateway)
    (hother : ev.check_run_app_id = some other) (hne : other ≠ app_id) :
    handle_check_run app_id ev gw = ([], Outcome.ok) := by
  simp [handle_check_run, hother, hne]

/-- Witness for C5 at a concrete event carrying app id 9 under configured
id 7. -/
theorem c5_witness : handle_check_run 7 evOtherApp gw0 = ([], Outcome.ok) :=
  c5_app_guard 7 9 evOtherApp gw0 rfl (by decide)

/-- C6: a check_suite event whose action is neither requested nor
rerequested is a complete no-op, and a check_suite event whose
pull_requests set is empty (or absent, defaulted to empty) issues no
gateway call, in particular creates no check run. -/
theorem c6_no_op (ev : Event) (gw : Gateway) :
    (∀ a, ev.action = some a → a ≠ "requested" → a ≠ "rerequested" →
        handle_check_suite ev gw = ([], Outcome.ok))
    ∧ (ev.check_suite_pull_requests.getD [] = [] →
        (handle_check_suite ev gw).1 = []) := by
  constructor
  · intro a ha h1 h2
    simp [handle_check_suite, ha, h1, h2]
  · intro hprs
    cases ha : ev.action with
    | none => simp [handle_check_suite, ha]
    | some a =>
        by_cases h1 : a ≠ "requested" ∧ a ≠ "rerequested"
        · simp [handle_check_suite, ha, h1]
        · simp [handle_check_suite, ha, h1, hprs]

/-- Witness for C6: a completed suite and an empty-PR-set suite. -/
theorem c6_witness :
    handle_check_suite evSuiteCompleted gw0 = ([], Outcome.ok)
    ∧ (handle_check_suite evSuiteEmpty gw0).1 = [] :=
  ⟨(c6_no_op evSuiteCompleted gw0).1 "completed" rfl (by decide) (by decide),
   (c6_no_op evSuiteEmpty gw0).2 rfl⟩

/-- C9: when the PR lookup of the initiation protocol returns an empty
result, the protocol first issues the PR-not-found modify request and
then raises while subscripting the falsy lookup result for logging, so
it never returns normally. -/
theorem c9_pr_lookup_raises (ev : Event) (gw : Gateway) (rid : Nat) (sha : String)
    (p0 : PullRequestRef) (ps : List PullRequestRef)
    (hid : ev.check_run_id = some rid)
    (hsha : ev.check_run_head_sha = some sha)
    (hprs : ev.check_run_check_suite_pull_requests = some (p0 :: ps))
    (hpr : gw.get_prs p0.number = none) :
    initiate_check_run ev gw
      = ([Call.modify_check_run rid (prNotFoundKwargs p0.number)],
         Outcome.exn "TypeError: subscript of falsy PR lookup result") := by
  simp [initiate_check_run, hid, hsha, hprs, hpr]

/-- Witness for C9 at the concrete one-PR event against the empty
gateway. -/
theorem c9_witness :
    initiate_check_run evOnePR gw0
      = ([Call.modify_check_run 5 (prNotFoundKwargs 42)],
         Outcome.exn "TypeError: subscript of falsy PR lookup result") :=
  c9_pr_lookup_raises evOnePR gw0 5 "abc123" (PullRequestRef.mk 42) [] rfl rfl rfl rfl

/-- C4: a guarded check_run.created event whose PR modifies at least one
recipe manifest yields exactly one scheduler call whose PRInfo carries
the diff filtered to manifest files, in diff order. -/
theorem c4_schedule_call (app_id : Nat) (ev : Event) (gw : Gateway) (rid : Nat) (sha : String)
    (p0 : PullRequestRef) (ps : List PullRequestRef) (pr : PR) (inst : Nat)
    (hguard : ev.check_run_app_id = some app_id)
    (haction : ev.action = some "created")
    (hid : ev.check_run_id = some rid)
    (hsha : ev.check_run_head_sha = some sha)
    (hprs : ev.check_run_check_suite_pull_requests = some (p0 :: ps))
    (hpr : gw.get_prs p0.number = some pr)
    (hinst : ev.installation_id = some inst)
    (hrec : recipeFilter (gw.get_pr_modified_files p0.number) ≠ []) :
    handle_check_run app_id ev gw
      = ([Call.schedule
            (PRInfo.mk inst pr.head_user_login pr.head_repo_name pr.head_ref
              (recipeFilter (gw.get_pr_modified_files p0.number)) p0.number)
            sha rid], Outcome.ok)
    ∧ recipeFilter (gw.get_pr_modified_files p0.number)
        = ((gw.get_pr_modified_files p0.number).map FileItem.filename).filter
            (fun f => pyEndsWith f "/meta.yaml") := by
  constructor
  · simp [handle_check_run, initiate_check_run, hguard, haction, hid, hsha, hprs, hpr,
      hinst, List.isEmpty_iff, hrec]
  · exact recipeFilter_eq_filter_map _

/-- Witness for C4: the spec scenario, a PR touching
recipes/foo/meta.yaml and recipes/foo/build.sh, gives one scheduler call
for the single manifest path. -/
theorem c4_witness :
    handle_check_run 7 evOnePR gwScenario
      = ([Call.schedule
            (PRInfo.mk 11 "alice" "bioconda-recipes" "patch-1"
              ["recipes/foo/meta.yaml"] 42)
            "abc123" 5], Outcome.ok)
    ∧ ["recipes/foo/meta.yaml"]
        = (["recipes/foo/meta.yaml", "recipes/foo/build.sh"].filter
            (fun f => pyEndsWith f "/meta.yaml")) :=
  c4_schedule_call 7 evOnePR gwScenario 5 "abc123" (PullRequestRef.mk 42) []
    (PR.mk "alice" "bioconda-recipes" "patch-1") 11 rfl rfl rfl rfl rfl rfl rfl (by decide)

/-- C1 (counterexample): handling a check_run event with action
rerequested (passing the app-id guard) issues a create-check-run
request, so the orchestrator does create on check_run activity. -/
theorem c1_counterexample :
    handle_check_run 7 evRerun gw0
      = ([Call.create_check_run "Linting Recipe(s)" "abc123"], Outcome.ok)
    ∧ (handle_check_run 7 evRerun gw0).1.countP isCreateCall = 1
    ∧ evRerun.action = some "rerequested" := by decide

/-- C1 (amended): each handler invocation issues at most one
create-check-run request; handling a check_run event with action
created issues none (creates happen only on check_suite activity and on
check_run rerequested activity); check_suite handling never issues a
modify request; and a modify request on check_run activity happens only
when the action is created. -/
theorem c1_create_discipline (app_id : Nat) (ev : Event) (gw : Gateway) :
    ((handle_check_suite ev gw).1.countP isCreateCall ≤ 1)
    ∧ ((handle_check_run app_id ev gw).1.countP isCreateCall ≤ 1)
    ∧ (ev.action = some "created" →
        (handle_check_run app_id ev gw).1.countP isCreateCall = 0)
    ∧ ((handle_check_suite ev gw).1.countP isModifyCall = 0)
    ∧ (∀ c ∈ (handle_check_run app_id ev gw).1, isModifyCall c = true →
        ev.action = some "created") := by
  refine ⟨?_, ?_, ?_, ?_, ?_⟩
  · rcases handle_check_suite_calls ev gw with h | ⟨sha, h⟩ <;>
      simp [h, isCreateCall]
  · rcases handle_check_run_calls app_id ev gw with h | ⟨ha, h⟩ | ⟨ha, h⟩
    · simp [h]
    · rw [h]
      rcases create_check_run_calls ev gw with h2 | ⟨sha, h2⟩ <;>
        simp [h2, isCreateCall]
    · rw [h]
      rcases initiate_check_run_calls ev gw with h2 | ⟨r, k, h2⟩ | ⟨p, s2, r, h2⟩ <;>
        simp [h2, isCreateCall]
  · intro hact
    rcases handle_check_run_calls app_id ev gw with h | ⟨ha, h⟩ | ⟨ha, h⟩
    · simp [h]
    · rw [hact] at ha
      simp at ha
    · rw [h]
      rcases initiate_check_run_calls ev gw with h2 | ⟨r, k, h2⟩ | ⟨p, s2, r, h2⟩ <;>
        simp [h2, isCreateCall]
  · rcases handle_check_suite_calls ev gw with h | ⟨sha, h⟩ <;>
      simp [h, isModifyCall]
  · intro c hc hmod
    rcases handle_check_run_calls app_id ev gw with h | ⟨ha, h⟩ | ⟨ha, h⟩
    · rw [h] at hc
      simp at hc
    · rw [h] at hc
      rcases create_check_run_calls ev gw with h2 | ⟨sha, h2⟩ <;> rw [h2] at hc <;>
        simp at hc
      subst hc
      simp [isModifyCall] at hmod
    · exact ha

/-- Witness for C1 (amended): a created event issues no create, and an
empty-suite event issues no modify. -/
theorem c1_witness :
    (handle_check_run 7 evNoPRs gw0).1.countP isCreateCall = 0
    ∧ (handle_check_suite evSuiteEmpty gw0).1.countP isModifyCall = 0 :=
  ⟨(c1_create_discipline 7 evNoPRs gw0).2.2.1 rfl,
   (c1_create_discipline 7 evSuiteEmpty gw0).2.2.2.1⟩

/-- C2 (code bug): the three terminal branches of the initiation
protocol each issue exactly one modify-check-run request with status
completed and conclusions neutral, neutral and success (never failure)
and no scheduler call, but the two neutral branches pass the summary
under the misspelled keyword outout_summary, so the gateway field
output_summary is not supplied there; only the success branch supplies
it. -/
theorem c2_summary_keyword :
    (initiate_check_run evNoPRs gw0
        = ([Call.modify_check_run 5 noPRsKwargs], Outcome.ok))
    ∧ (initiate_check_run evOnePR gw0
        = ([Call.modify_check_run 5 (prNotFoundKwargs 42)],
           Outcome.exn "TypeError: subscript of falsy PR lookup result"))
    ∧ (initiate_check_run evOnePR gwNoRecipes
        = ([Call.modify_check_run 5 noRecipesKwargs], Outcome.ok))
    ∧ (("status", KwVal.status CheckRunStatus.completed) ∈ noPRsKwargs
        ∧ ("conclusion", KwVal.conclusion CheckRunConclusion.neutral) ∈ noPRsKwargs)
    ∧ (("status", KwVal.status CheckRunStatus.completed) ∈ prNotFoundKwargs 42
        ∧ ("conclusion", KwVal.conclusion CheckRunConclusion.neutral) ∈ prNotFoundKwargs 42)
    ∧ (("status", KwVal.status CheckRunStatus.completed) ∈ noRecipesKwargs
        ∧ ("conclusion", KwVal.conclusion CheckRunConclusion.success) ∈ noRecipesKwargs)
    ∧ ("output_summary" ∉ noPRsKwargs.map Prod.fst
        ∧ "outout_summary" ∈ noPRsKwargs.map Prod.fst
        ∧ "output_title" ∈ noPRsKwargs.map Prod.fst)
    ∧ ("output_summary" ∉ (prNotFoundKwargs 42).map Prod.fst
        ∧ "outout_summary" ∈ (prNotFoundKwargs 42).map Prod.fst)
    ∧ ("output_summary" ∈ noRecipesKwargs.map Prod.fst) := by decide

/-- C3 (counterexample): on the line "@bioconda-bot lint RETRY" the
extracted argument is "retry", not the original-case "RETRY", because
the whole line is lower-cased before splitting. -/
theorem c3_counterexample :
    parseLine "@bioconda-bot lint RETRY" = some ["lint", "retry"]
    ∧ some ["lint", "retry"] ≠ some ["lint", "RETRY"] := by decide

/-- C3 (amended): for every comment line that starts with its first
whitespace-delimited token (no leading whitespace) and whose first
token matches the bot alias, the parsed command name is the second
token lower-cased and the arguments are the remaining tokens
lower-cased as well (original case is not preserved). -/
theorem c3_lowercased_command (line t0 t1 : String) (rest : List String)
    (hsplit : pySplit line = t0 :: t1 :: rest)
    (hstart : noLeadingWs line = true)
    (halias : botAliasMatch t0 = true) :
    parseLine line = some (lowerStr t1 :: rest.map lowerStr) := by
  have hpre := pySplit_head_of_line line t0 (t1 :: rest) hsplit hstart
  have hline := botAliasMatch_of_token line t0 hpre halias
  unfold parseLine
  rw [hline, if_pos rfl]
  rw [pySplit_lower, hsplit]
  simp

/-- Witness for C3 (amended) on a mixed-case line. -/
theorem c3_witness :
    parseLine "@BioConda-Bot LINT Retry extra" = some ["lint", "retry", "extra"] :=
  c3_lowercased_command "@BioConda-Bot LINT Retry extra" "@BioConda-Bot" "LINT"
    ["Retry", "extra"] (by decide) (by decide) (by decide)

/-- C7: command extraction is anchored at line start and preserves
comment order: the mixed-case command line parses, a mid-sentence
mention does not, and the three-line body yields exactly the two
commands in order. -/
theorem c7_line_anchoring :
    extractCommands "@BioConda-Bot lint retry" = [["lint", "retry"]]
    ∧ dispatchCommands [["lint", "retry"]]
        = ([Call.dispatch "lint" ["retry"]], Outcome.ok)
    ∧ extractCommands "see @bioconda-bot for help" = []
    ∧ extractCommands "@bioconda-bot please\n@bioconda-bot merge\nhello @bioconda-bot"
        = [["please"], ["merge"]]
    ∧ comment_created evC7 gw0
        = ([Call.dispatch "please" [], Call.dispatch "merge" []], Outcome.ok) := by
  decide

/-- C8 (counterexample): in a comment whose second line is the bare
alias, the command on the first line is dispatched before the
unpacking error is raised, refuting that no command of the comment is
dispatched. -/
theorem c8_counterexample :
    comment_created evC8 gw0
      = ([Call.dispatch "merge" []],
         Outcome.exn "ValueError: not enough values to unpack")
    ∧ Call.dispatch "merge" [] ∈ (comment_created evC8 gw0).1 := by decide

/-- C8 (amended): when the extracted command list contains an empty
entry (as produced by a line that is the bare alias with no command
token), the handler raises the unpacking ValueError upon reaching that
entry; the commands before it have been dispatched and no later command
is dispatched. -/
theorem c8_alias_only_line (ev : Event) (gw : Gateway) (body : String)
    (pre post : List (List String))
    (hbody : ev.comment_body = some body)
    (hsplit : extractCommands body = pre ++ [] :: post)
    (hpre : [] ∉ pre) :
    comment_created ev gw
      = (pre.map (fun c => Call.dispatch (c.headD "") (c.drop 1)),
         Outcome.exn "ValueError: not enough values to unpack") := by
  simp only [comment_created, hbody, hsplit]
  exact dispatchCommands_empty_entry pre post hpre

/-- Witness for C8 (amended) at the two-line comment. -/
theorem c8_witness :
    comment_created evC8 gw0
      = ([["merge"]].map (fun c => Call.dispatch (c.headD "") (c.drop 1)),
         Outcome.exn "ValueError: not enough values to unpack") :=
  c8_alias_only_line evC8 gw0 "@bioconda-bot merge\n@bioconda-bot" [["merge"]] []
    rfl (by decide) (by decide)

/-- C10: the recipe filter keeps exactly the changed files whose
filename ends in the string "/meta.yaml"; ending in "/meta.yaml" means
being some prefix followed by "/meta.yaml"; and a file whose full path
is exactly "meta.yaml" never passes the filter. -/
theorem c10_manifest_filter :
    (∀ (files : List FileItem) (f : String),
        f ∈ recipeFilter files
          ↔ (∃ it ∈ files, it.filename = f) ∧ pyEndsWith f "/meta.yaml" = true)
    ∧ (∀ s : String, pyEndsWith s "/meta.yaml" = true ↔ ∃ t : String, s = t ++ "/meta.yaml")
    ∧ (pyEndsWith "meta.yaml" "/meta.yaml" = false)
    ∧ (∀ files : List FileItem, "meta.yaml" ∉ recipeFilter files) := by
  refine ⟨mem_recipeFilter_iff, fun s => pyEndsWith_iff s _, by decide, ?_⟩
  intro files hmem
  have h := (mem_recipeFilter_iff files "meta.yaml").mp hmem
  exact absurd h.2 (by decide)

/-- Witness for C10 at a two-file listing containing a root-level
meta.yaml. -/
theorem c10_witness :
    "meta.yaml" ∉ recipeFilter [FileItem.mk "meta.yaml", FileItem.mk "recipes/foo/meta.yaml"] :=
  c10_manifest_filter.2.2.2 [FileItem.mk "meta.yaml", FileItem.mk "recipes/foo/meta.yaml"]

end BotEvents
